import Mathlib

/-!
Verification development for the CSW search adapter
(`eodag/plugins/search/csw.py`).

The adapter is shallowly embedded: each Python method of `CSWSearch`
becomes a total Lean function over explicit data.  Coordinates are
modelled as `Int` (the code never computes with them; it only moves
them around and hands them to the external reprojector), external
collaborators (the `pyproj` reprojection, the regex `search`, the
`properties_from_xml` metadata mapper and `slugify`) are abstract
function parameters bundled in `Externals`, and the remote catalog is
an oracle from a constraint set to either a service exception
(`Except.error`, modelling an owslib `ExceptionReport`) or a list of
raw records.  Logging is modelled by a list of `LogEntry` values
mirroring the `logger.warning` calls on the two recovered error paths
(catalog-initialisation failure, per-definition query failure); purely
informational log lines are not modelled.  Python falsiness of the
optional pieces of data the code tests (`None`, the empty string, an
absent bounding box) is modelled with `Option` and explicit
empty-string tests, matching each `if x:` in the source.
-/

namespace CSW

/-- The single supported reference scheme, from `SUPPORTED_REFERENCE_SCHEMES`
in the source. -/
def SUPPORTED_REFERENCE_SCHEMES : List String :=
  ["WWW:DOWNLOAD-1.0-http--download"]

/-- One entry of `config['search_definitions']['pt_tags']`: a provider-side
tag name plus an optional matching mode (`product_type_def.get('matching',
'fuzzy')` defaults it to `"fuzzy"`). -/
structure ProductTypeDef where
  name : String
  matching : Option String
deriving DecidableEq

/-- The slice of the plugin configuration the embedded code reads:
`search_definitions.pt_tags`, `search_definitions.date_tags.{start,end}`,
the optional `search_definitions.resource_location_filter` regex string
(absent means `''` after the `.get` default), and the opaque
`metadata_mapping` table handed to the metadata mapper. -/
structure Config where
  pt_tags : List ProductTypeDef
  date_tags_start : String
  date_tags_end : String
  resource_location_filter : Option String
  metadata_mapping : String
deriving DecidableEq

/-- The footprint dictionary read from the search parameters
(`fp['lonmin']`, `fp['latmin']`, `fp['lonmax']`, `fp['latmax']`). -/
structure Footprint where
  lonmin : Int
  latmin : Int
  lonmax : Int
  latmax : Int
deriving DecidableEq

/-- The keyword search parameters the embedded code reads: the `geometry`
footprint used for the bounding-box constraint, the two optional timestamp
strings, and the separate `footprints` entry passed through to the product
as `searched_bbox`.  (`auth` only feeds connection establishment, which is
abstracted into the connection oracle.) -/
structure QueryParams where
  geometry : Option Footprint
  startTimeFromAscendingNode : Option String
  completionTimeFromAscendingNode : Option String
  footprints : Option Footprint
deriving DecidableEq

/-- An owslib filter predicate, as built by `__convert_query_params`. -/
inductive Constraint where
  | propertyIsLike (tag pattern : String)
  | propertyIsEqualTo (tag value : String)
  | bbox (bounds : List Int)
  | propertyIsGreaterThanOrEqualTo (tag value : String)
  | propertyIsLessThanOrEqualTo (tag value : String)
deriving DecidableEq

/-- The value returned by `__convert_query_params` is either a flat list of
constraints or a one-element list holding a list of constraints (the AND
group).  A `ConstraintItem` is one element of that heterogeneous list. -/
inductive ConstraintItem where
  | single (c : Constraint)
  | group (cs : List Constraint)
deriving DecidableEq

/-- The coordinate reference system attached to a record's native bounding
box: `rec.bbox.crs.id` (the authority, e.g. `"EPSG"`) and the optional
numeric `rec.bbox.crs.code`. -/
structure CRS where
  id : String
  code : Option Int
deriving DecidableEq

/-- A record's native bounding box `rec.bbox` with its CRS. -/
structure RecBBox where
  crs : CRS
  minx : Int
  miny : Int
  maxx : Int
  maxy : Int
deriving DecidableEq

/-- A `(scheme, url)` resource reference of a record. -/
structure Reference where
  scheme : String
  url : String
deriving DecidableEq

/-- A raw catalog record as the code reads it: the optional WGS84 bounding
box `rec.bbox_wgs84` (absent when the record only carries a native-CRS
box), the native box, the ordered reference list, the raw XML payload and
the record identifier. -/
structure RawRecord where
  bbox_wgs84 : Option (Int × Int × Int × Int)
  bbox : RecBBox
  references : List Reference
  xml : String
  identifier : String
deriving DecidableEq

/-- A property value stored in the product's properties dictionary: either
a string or the `geometry.box(*bbox)` polygon, identified by its four
bounds. -/
inductive PropValue where
  | str (s : String)
  | geom (box : Int × Int × Int × Int)
deriving DecidableEq

/-- The product properties dictionary, as a lookup function. -/
def PropDict : Type := String → Option PropValue

/-- Dictionary assignment `d[k] = v`. -/
def PropDict.set (d : PropDict) (k : String) (v : PropValue) : PropDict :=
  fun key => if key = k then some v else d key

/-- The external collaborators, as abstract functions:
`transform src x y` is `pyproj.transform(Proj(init=src), DEFAULT_PROJ, x, y)`;
`regexSearch pat s` is the truthiness of `re.compile(pat).search(s)`;
`propertiesFromXml xml mapping` is `properties_from_xml`, returning the
properties dictionary; `slugify` is `eodag.utils.slugify`. -/
structure Externals where
  transform : String → Int → Int → Int × Int
  regexSearch : String → String → Bool
  propertiesFromXml : String → String → PropDict
  slugify : String → String

/-- The canonical output product, i.e. the arguments of the
`EOProduct(product_type, self.instance_name, download_url, properties,
searched_bbox=kwargs.get('footprints'))` construction. -/
structure EOProduct where
  product_type : String
  provider : String
  download_url : String
  properties : PropDict
  searched_bbox : Option Footprint

/-- The product-type constraint appended first by `__convert_query_params`,
chosen by the definition's matching mode. -/
def ptConstraint (d : ProductTypeDef) (productType : String) : Constraint :=
  let matching := d.matching.getD "fuzzy"
  if matching = "prefix" then
    Constraint.propertyIsLike d.name (productType ++ "%")
  else if matching = "postfix" then
    Constraint.propertyIsLike d.name ("%" ++ productType)
  else if matching = "exact" then
    Constraint.propertyIsEqualTo d.name productType
  else
    Constraint.propertyIsLike d.name ("%" ++ productType ++ "%")

/-- The flat constraint list accumulated by `__convert_query_params` before
the final grouping step: the product-type constraint, then the optional
footprint constraint, then the optional start- and end-date constraints. -/
def buildConstraints (cfg : Config) (d : ProductTypeDef) (productType : String)
    (params : QueryParams) : List Constraint :=
  let constraints := [ptConstraint d productType]
  let constraints :=
    match params.geometry with
    | some fp =>
        constraints ++ [Constraint.bbox [fp.lonmin, fp.latmin, fp.lonmax, fp.latmax]]
    | none => constraints
  let constraints :=
    match params.startTimeFromAscendingNode with
    | some s =>
        if s = "" then constraints
        else constraints ++ [Constraint.propertyIsGreaterThanOrEqualTo cfg.date_tags_start s]
    | none => constraints
  match params.completionTimeFromAscendingNode with
  | some e =>
      if e = "" then constraints
      else constraints ++ [Constraint.propertyIsLessThanOrEqualTo cfg.date_tags_end e]
  | none => constraints

/-- `__convert_query_params`: build the constraints, then
`return [constraints] if len(constraints) > 1 else constraints`. -/
def convertQueryParams (cfg : Config) (d : ProductTypeDef) (productType : String)
    (params : QueryParams) : List ConstraintItem :=
  let constraints := buildConstraints cfg d productType params
  if constraints.length > 1 then [ConstraintItem.group constraints]
  else constraints.map ConstraintItem.single

/-- The `pyproj.Proj(init=code)` source-CRS code derived in
`__build_product`: `'EPSG:4326'` unless the record's CRS code is present
and positive, in which case `str(crs.id) + ':' + str(crs.code)`. -/
def crsInitCode (crs : CRS) : String :=
  match crs.code with
  | some c => if 0 < c then crs.id ++ ":" ++ toString c else "EPSG:4326"
  | none => "EPSG:4326"

/-- The bounding-box resolution step of `__build_product`: use
`rec.bbox_wgs84` when present, otherwise reproject the `(maxx, maxy)` and
`(minx, miny)` corners of the native box to the default CRS and assemble
`(minx, miny, maxx, maxy)` from the reprojected values. -/
def resolveBBox (transform : String → Int → Int → Int × Int) (rec : RawRecord) :
    Int × Int × Int × Int :=
  match rec.bbox_wgs84 with
  | some b => b
  | none =>
      let code := crsInitCode rec.bbox.crs
      let maxPair := transform code rec.bbox.maxx rec.bbox.maxy
      let minPair := transform code rec.bbox.minx rec.bbox.miny
      (minPair.1, minPair.2, maxPair.1, maxPair.2)

/-- The download-URL selection loop of `__build_product`: walk the
references in order, stop at the first one whose scheme is supported, and
take its URL in either branch of the resource-filter test; `''` when no
reference matches. -/
def selectDownloadUrl (pattern : String) (regexSearch : String → String → Bool) :
    List Reference → String
  | [] => ""
  | r :: rest =>
      if SUPPORTED_REFERENCE_SCHEMES.contains r.scheme then
        if pattern != "" && regexSearch pattern r.url then r.url else r.url
      else selectDownloadUrl pattern regexSearch rest

/-- `__build_product`: resolve the bounding box, select the download URL,
map the metadata, overlay `title`, `geometry` and `productType`, and build
the `EOProduct`, passing `kwargs.get('footprints')` as the searched box. -/
def buildProduct (ext : Externals) (cfg : Config) (instanceName productType : String)
    (params : QueryParams) (rec : RawRecord) : EOProduct :=
  let bbox := resolveBBox ext.transform rec
  let downloadUrl :=
    selectDownloadUrl (cfg.resource_location_filter.getD "") ext.regexSearch rec.references
  let props := ext.propertiesFromXml rec.xml cfg.metadata_mapping
  let props := props.set "title" (PropValue.str (ext.slugify rec.identifier))
  let props := props.set "geometry" (PropValue.geom bbox)
  let props := props.set "productType" (PropValue.str productType)
  { product_type := productType
    provider := instanceName
    download_url := downloadUrl
    properties := props
    searched_bbox := params.footprints }

/-- A modelled log line: the `logger.warning` in `__init_catalog` or the
`logger.warning` in the per-definition loop of `query` (which carries the
definition's tag name and the product type). -/
inductive LogEntry where
  | initFailed
  | queryFailed (tag : String) (productType : String)
deriving DecidableEq

/-- The remote catalog after a successful connection: `getrecords2`
either raises an `ExceptionReport` (`Except.error`) or populates
`catalog.records`, whose values the code then reads in order. -/
structure Catalog where
  getrecords2 : List ConstraintItem → Except Unit (List RawRecord)

/-- `__init_catalog`: a no-op when a catalog already exists; otherwise the
connection attempt either yields a catalog or fails, in which case the
failure is logged and `self.catalog` stays `None` (the `except Exception`
branch). -/
def initCatalog : Option Catalog → Except Unit Catalog →
    Option Catalog × List LogEntry
  | some c, _ => (some c, [])
  | none, Except.ok c => (some c, [])
  | none, Except.error _ => (none, [LogEntry.initFailed])

/-- The per-definition loop of `query`: for each definition build the
constraints and call `getrecords2`; on an `ExceptionReport` log a warning
and `continue`; otherwise normalize every returned record and extend the
results. -/
def queryLoop (ext : Externals) (cfg : Config) (instanceName : String) (cat : Catalog)
    (productType : String) (params : QueryParams) :
    List ProductTypeDef → List EOProduct × List LogEntry
  | [] => ([], [])
  | d :: rest =>
      match cat.getrecords2 (convertQueryParams cfg d productType params) with
      | Except.error _ =>
          ((queryLoop ext cfg instanceName cat productType params rest).1,
           LogEntry.queryFailed d.name productType ::
             (queryLoop ext cfg instanceName cat productType params rest).2)
      | Except.ok records =>
          (records.map (buildProduct ext cfg instanceName productType params) ++
             (queryLoop ext cfg instanceName cat productType params rest).1,
           (queryLoop ext cfg instanceName cat productType params rest).2)

/-- `query`: initialise the catalog (lazily; `prevCatalog` is the adapter's
current `self.catalog` and `connectResult` abstracts the
`CatalogueServiceWeb(...)` attempt), then, only when a catalog exists, run
the per-definition loop over `config['search_definitions']['pt_tags']`.
Returns the accumulated results together with the modelled warnings; it is
a total function, so no exception escapes it. -/
def query (ext : Externals) (cfg : Config) (instanceName : String)
    (prevCatalog : Option Catalog) (connectResult : Except Unit Catalog)
    (productType : String) (params : QueryParams) :
    List EOProduct × List LogEntry :=
  let init := initCatalog prevCatalog connectResult
  match init.1 with
  | none => ([], init.2)
  | some cat =>
      let r := queryLoop ext cfg instanceName cat productType params cfg.pt_tags
      (r.1, init.2 ++ r.2)

/-- The download-URL selection as the specification words it, without the
resource-location filter: the URL of the first reference whose scheme is
supported, the empty string when none is.  Used as the filter-free side of
the refinement claim about the filter branch. -/
def selectDownloadUrlNoFilter : List Reference → String
  | [] => ""
  | r :: rest =>
      if SUPPORTED_REFERENCE_SCHEMES.contains r.scheme then r.url
      else selectDownloadUrlNoFilter rest

/-- Shared concrete configuration used by the concrete evaluations below. -/
def cfg0 : Config :=
  { pt_tags := [⟨"apiso:Title", none⟩, ⟨"apiso:Subject", some "exact"⟩]
    date_tags_start := "apiso:TempExtent_begin"
    date_tags_end := "apiso:TempExtent_end"
    resource_location_filter := none
    metadata_mapping := "mapping" }

/-- Shared concrete externals: identity reprojection, never-matching regex,
empty metadata mapping, identity slug. -/
def ext0 : Externals :=
  { transform := fun _ x y => (x, y)
    regexSearch := fun _ _ => false
    propertiesFromXml := fun _ _ => fun _ => none
    slugify := fun s => s }

/-- Concrete search parameters carrying only a `geometry` footprint. -/
def paramsFP : QueryParams :=
  { geometry := some ⟨0, 1, 2, 3⟩
    startTimeFromAscendingNode := none
    completionTimeFromAscendingNode := none
    footprints := none }

/-- The flat constraint list always starts with the product-type
constraint, whatever the optional parameters contribute. -/
lemma buildConstraints_cons (cfg : Config) (d : ProductTypeDef) (pt : String)
    (params : QueryParams) :
    ∃ rest, buildConstraints cfg d pt params = ptConstraint d pt :: rest := by
  rcases params with ⟨g, s, e, f⟩
  unfold buildConstraints
  cases g <;> cases s <;> cases e <;> (repeat' split) <;> exact ⟨_, rfl⟩

/-- The selection loop returns the URL of the first supported-scheme
reference, the empty string when there is none. -/
lemma selectDownloadUrl_eq_find (p : String) (rs : String → String → Bool)
    (refs : List Reference) :
    selectDownloadUrl p rs refs =
      match refs.find? (fun r => SUPPORTED_REFERENCE_SCHEMES.contains r.scheme) with
      | some r => r.url
      | none => "" := by
  induction refs with
  | nil => rfl
  | cons r rest ih =>
      by_cases hc : r.scheme ∈ SUPPORTED_REFERENCE_SCHEMES <;>
        simp [selectDownloadUrl, List.find?, hc, ih]

/-- The filter-laden selection loop equals the filter-free one: both
branches of the filter test return the same URL. -/
lemma selectDownloadUrl_eq_noFilter (p : String) (rs : String → String → Bool)
    (refs : List Reference) :
    selectDownloadUrl p rs refs = selectDownloadUrlNoFilter refs := by
  induction refs with
  | nil => rfl
  | cons r rest ih => simp [selectDownloadUrl, selectDownloadUrlNoFilter, ih]

/-- C2: the product-type constraint follows the `matching` mode — `prefix`
yields the like-pattern `value%`, `postfix` yields `%value`, `exact` yields
an equality constraint, and any other mode (including an unset one) yields
the fuzzy pattern `%value%`. -/
theorem c2_product_type_matching_modes (d : ProductTypeDef) (pt : String) :
    (d.matching = some "prefix" →
      ptConstraint d pt = Constraint.propertyIsLike d.name (pt ++ "%"))
  ∧ (d.matching = some "postfix" →
      ptConstraint d pt = Constraint.propertyIsLike d.name ("%" ++ pt))
  ∧ (d.matching = some "exact" →
      ptConstraint d pt = Constraint.propertyIsEqualTo d.name pt)
  ∧ (d.matching = none →
      ptConstraint d pt = Constraint.propertyIsLike d.name ("%" ++ pt ++ "%"))
  ∧ (∀ m, d.matching = some m → m ≠ "prefix" → m ≠ "postfix" → m ≠ "exact" →
      ptConstraint d pt = Constraint.propertyIsLike d.name ("%" ++ pt ++ "%")) := by
  refine ⟨fun h => ?_, fun h => ?_, fun h => ?_, fun h => ?_,
    fun m h h1 h2 h3 => ?_⟩ <;> simp [ptConstraint, h]
  simp [h1, h2, h3]

/-- C2 witness: the unknown mode `"typo"` with product type `"S2"` yields
the fuzzy constraint value `"%S2%"`. -/
theorem c2_matching_modes_witness :
    ptConstraint ⟨"apiso:Title", some "typo"⟩ "S2" =
      Constraint.propertyIsLike "apiso:Title" "%S2%" :=
  (c2_product_type_matching_modes ⟨"apiso:Title", some "typo"⟩ "S2").2.2.2.2 "typo" rfl
    (by decide) (by decide) (by decide)

/-- C3: when more than one constraint was produced, `__convert_query_params`
returns exactly one group holding all of them in order; with one or zero
constraints it returns the flat ungrouped sequence. -/
theorem c3_grouping_rule (cfg : Config) (d : ProductTypeDef) (pt : String)
    (params : QueryParams) :
    (1 < (buildConstraints cfg d pt params).length →
      convertQueryParams cfg d pt params =
        [ConstraintItem.group (buildConstraints cfg d pt params)])
  ∧ ((buildConstraints cfg d pt params).length ≤ 1 →
      convertQueryParams cfg d pt params =
        (buildConstraints cfg d pt params).map ConstraintItem.single) := by
  constructor <;> intro h <;> simp only [convertQueryParams]
  · rw [if_pos h]
  · rw [if_neg (by omega)]

/-- C3 witness: with a footprint present two constraints are produced and
they come back as a single group. -/
theorem c3_grouping_witness :
    convertQueryParams cfg0 ⟨"apiso:Title", none⟩ "S2" paramsFP =
      [ConstraintItem.group (buildConstraints cfg0 ⟨"apiso:Title", none⟩ "S2" paramsFP)] :=
  (c3_grouping_rule cfg0 ⟨"apiso:Title", none⟩ "S2" paramsFP).1 (by decide)

/-- C10: the constraint list is never empty and its first element is always
the product-type constraint, so the zero-constraint case of the grouping
rule is unreachable and `__convert_query_params` never returns an empty
sequence. -/
theorem c10_product_type_constraint_first (cfg : Config) (d : ProductTypeDef)
    (pt : String) (params : QueryParams) :
    (buildConstraints cfg d pt params).head? = some (ptConstraint d pt)
  ∧ 1 ≤ (buildConstraints cfg d pt params).length
  ∧ 1 ≤ (convertQueryParams cfg d pt params).length := by
  obtain ⟨rest, hrest⟩ := buildConstraints_cons cfg d pt params
  refine ⟨by rw [hrest]; rfl, by rw [hrest]; simp, ?_⟩
  simp only [convertQueryParams]
  rw [hrest]
  split <;> simp

/-- C5: the download URL of the built product is the URL of the first
reference whose scheme is the single supported HTTP-download scheme, and
the empty string when no reference has a supported scheme. -/
theorem c5_download_url_first_supported (ext : Externals) (cfg : Config)
    (instanceName pt : String) (params : QueryParams) (rec : RawRecord) :
    SUPPORTED_REFERENCE_SCHEMES = ["WWW:DOWNLOAD-1.0-http--download"]
  ∧ (buildProduct ext cfg instanceName pt params rec).download_url =
      match rec.references.find?
          (fun r => SUPPORTED_REFERENCE_SCHEMES.contains r.scheme) with
      | some r => r.url
      | none => "" :=
  ⟨rfl, selectDownloadUrl_eq_find (cfg.resource_location_filter.getD "")
    ext.regexSearch rec.references⟩

/-- C7: the selected download URL does not depend on the resource-location
filter pattern or on the regex semantics; it always equals the filter-free
selection. -/
theorem c7_filter_does_not_change_selection (ext : Externals)
    (rs : String → String → Bool) (cfg : Config) (flt : Option String)
    (instanceName pt : String) (params : QueryParams) (rec : RawRecord) :
    (buildProduct { ext with regexSearch := rs }
        { cfg with resource_location_filter := flt }
        instanceName pt params rec).download_url
      = selectDownloadUrlNoFilter rec.references :=
  selectDownloadUrl_eq_noFilter (flt.getD "") rs rec.references

/-- Concrete record with only a native-CRS bounding box, for evaluating the
reprojection path. -/
def rec4 : RawRecord :=
  { bbox_wgs84 := none
    bbox := { crs := { id := "EPSG", code := some 32631 }
              minx := 499000, miny := 4500000, maxx := 500000, maxy := 4501000 }
    references := []
    xml := "<rec/>"
    identifier := "id-native" }

/-- Concrete record already carrying a WGS84 bounding box. -/
def rec8 : RawRecord :=
  { bbox_wgs84 := some (1, 2, 3, 4)
    bbox := { crs := { id := "EPSG", code := none }
              minx := 0, miny := 0, maxx := 0, maxy := 0 }
    references := []
    xml := "<rec/>"
    identifier := "id-wgs84" }

/-- C4: when the WGS84 box is absent, the product geometry is the box
assembled from the two reprojected corners — mins from the reprojected
(min, min) corner, maxes from the reprojected (max, max) corner — and the
source CRS code is `EPSG:4326` when the record's code is absent or
non-positive, `authority:code` otherwise. -/
theorem c4_native_bbox_reprojected (ext : Externals) (cfg : Config)
    (instanceName pt : String) (params : QueryParams) (rec : RawRecord)
    (h : rec.bbox_wgs84 = none) :
    (buildProduct ext cfg instanceName pt params rec).properties "geometry" =
      some (PropValue.geom
        ((ext.transform (crsInitCode rec.bbox.crs) rec.bbox.minx rec.bbox.miny).1,
         (ext.transform (crsInitCode rec.bbox.crs) rec.bbox.minx rec.bbox.miny).2,
         (ext.transform (crsInitCode rec.bbox.crs) rec.bbox.maxx rec.bbox.maxy).1,
         (ext.transform (crsInitCode rec.bbox.crs) rec.bbox.maxx rec.bbox.maxy).2))
  ∧ (rec.bbox.crs.code = none → crsInitCode rec.bbox.crs = "EPSG:4326")
  ∧ (∀ c, rec.bbox.crs.code = some c → c ≤ 0 →
      crsInitCode rec.bbox.crs = "EPSG:4326")
  ∧ (∀ c, rec.bbox.crs.code = some c → 0 < c →
      crsInitCode rec.bbox.crs = rec.bbox.crs.id ++ ":" ++ toString c) := by
  refine ⟨?_, fun hc => by simp [crsInitCode, hc], fun c hc hle => ?_,
    fun c hc hpos => ?_⟩
  · simp [buildProduct, PropDict.set, resolveBBox, h]
  · simp only [crsInitCode, hc]
    rw [if_neg (by omega)]
  · simp only [crsInitCode, hc]
    rw [if_pos hpos]

/-- C4 witness: the UTM-zone record with code 32631 and box
(499000, 4500000, 500000, 4501000), evaluated with the identity
reprojection. -/
theorem c4_native_bbox_witness :
    rec4.bbox_wgs84 = none
  ∧ crsInitCode rec4.bbox.crs = "EPSG:32631"
  ∧ (buildProduct ext0 cfg0 "inst" "S2" paramsFP rec4).properties "geometry" =
      some (PropValue.geom (499000, 4500000, 500000, 4501000)) :=
  ⟨rfl, by decide,
    (c4_native_bbox_reprojected ext0 cfg0 "inst" "S2" paramsFP rec4 rfl).1⟩

/-- C8: a record already exposing a WGS84 bounding box is normalized from
that box directly, and the result does not depend on the reprojection
function at all. -/
theorem c8_wgs84_bbox_skips_reprojection (ext : Externals)
    (t : String → Int → Int → Int × Int) (cfg : Config)
    (instanceName pt : String) (params : QueryParams) (rec : RawRecord)
    (b : Int × Int × Int × Int) (h : rec.bbox_wgs84 = some b) :
    buildProduct { ext with transform := t } cfg instanceName pt params rec
      = buildProduct ext cfg instanceName pt params rec
  ∧ (buildProduct ext cfg instanceName pt params rec).properties "geometry"
      = some (PropValue.geom b) := by
  constructor
  · simp [buildProduct, resolveBBox, h]
  · simp [buildProduct, PropDict.set, resolveBBox, h]

/-- C8 witness: the WGS84-box record normalized with two different
reprojectors gives the same product, whose geometry is the record's own
box. -/
theorem c8_wgs84_bbox_witness :
    rec8.bbox_wgs84 = some (1, 2, 3, 4)
  ∧ (buildProduct { ext0 with transform := fun _ _ _ => (7, 7) }
        cfg0 "inst" "S2" paramsFP rec8
      = buildProduct ext0 cfg0 "inst" "S2" paramsFP rec8
    ∧ (buildProduct ext0 cfg0 "inst" "S2" paramsFP rec8).properties "geometry"
        = some (PropValue.geom (1, 2, 3, 4))) :=
  ⟨rfl, c8_wgs84_bbox_skips_reprojection ext0 (fun _ _ _ => (7, 7)) cfg0
    "inst" "S2" paramsFP rec8 (1, 2, 3, 4) rfl⟩

/-- C9 counterexample: a search carrying its footprint under the
`geometry` parameter (the one the constraint builder reads) yields a
product whose `searched_bbox` is empty — the product reads the separate
`footprints` parameter, so the searched box does not equal the search
footprint. -/
theorem c9_footprint_counterexample :
    paramsFP.geometry = some ⟨0, 1, 2, 3⟩
  ∧ (buildProduct ext0 cfg0 "inst" "S2" paramsFP rec8).searched_bbox = none
  ∧ ((buildProduct ext0 cfg0 "inst" "S2" paramsFP rec8).searched_bbox
        == paramsFP.geometry) = false :=
  ⟨rfl, rfl, rfl⟩

/-- C9 (amended): the searched bounding box passed to the product is the
`footprints` entry of the search parameters, passed through unchanged; it
is not derived from the `geometry` footprint used for the constraints. -/
theorem c9_searched_bbox_passthrough (ext : Externals) (cfg : Config)
    (instanceName pt : String) (params : QueryParams) (rec : RawRecord) :
    (buildProduct ext cfg instanceName pt params rec).searched_bbox
      = params.footprints :=
  rfl

/-- C1: when one definition's remote query raises a service exception, the
`query` results are exactly those of running the loop on the remaining
definitions in order (the failed definition contributes nothing, later
definitions still contribute), and the failure is logged with the
definition's tag and the product type.  `query` is a total function, so no
exception propagates out of it. -/
theorem c1_definition_failure_isolated (ext : Externals) (cfg : Config)
    (instanceName : String) (cat : Catalog) (cr : Except Unit Catalog)
    (pt : String) (params : QueryParams) (l1 l2 : List ProductTypeDef)
    (d : ProductTypeDef)
    (h1 : cfg.pt_tags = l1 ++ d :: l2)
    (h2 : cat.getrecords2 (convertQueryParams cfg d pt params) = Except.error ()) :
    (query ext cfg instanceName (some cat) cr pt params).1
      = (queryLoop ext cfg instanceName cat pt params (l1 ++ l2)).1
  ∧ LogEntry.queryFailed d.name pt
      ∈ (query ext cfg instanceName (some cat) cr pt params).2 := by
  have hq : query ext cfg instanceName (some cat) cr pt params
      = queryLoop ext cfg instanceName cat pt params cfg.pt_tags := rfl
  rw [hq, h1]
  clear h1 hq
  induction l1 with
  | nil =>
      refine ⟨by simp [queryLoop, h2], by simp [queryLoop, h2]⟩
  | cons a t ih =>
      obtain ⟨ih1, ih2⟩ := ih
      cases hga : cat.getrecords2 (convertQueryParams cfg a pt params) with
      | error e =>
          refine ⟨by simp [queryLoop, hga, ih1], ?_⟩
          simp only [List.cons_append, queryLoop, hga]
          exact List.mem_cons_of_mem _ ih2
      | ok records =>
          refine ⟨by simp [queryLoop, hga, ih1], ?_⟩
          simp only [List.cons_append, queryLoop, hga]
          exact ih2

/-- Definition whose query will fail in the concrete scenario. -/
def dFail : ProductTypeDef := ⟨"apiso:Title", none⟩

/-- Definition whose query will succeed in the concrete scenario. -/
def dOk : ProductTypeDef := ⟨"apiso:Subject", some "exact"⟩

/-- Two-definition configuration for the concrete scenario. -/
def cfg1 : Config := { cfg0 with pt_tags := [dFail, dOk] }

/-- Record returned by the second definition in the concrete scenario. -/
def recOk : RawRecord :=
  { bbox_wgs84 := some (10, 20, 30, 40)
    bbox := { crs := { id := "EPSG", code := none }
              minx := 0, miny := 0, maxx := 0, maxy := 0 }
    references := [⟨"WWW:DOWNLOAD-1.0-http--download", "http://e.example/p"⟩]
    xml := "<rec/>"
    identifier := "My Scene 01" }

/-- Concrete catalog: raises a service exception for the first
definition's constraints, returns one record otherwise. -/
def cat1 : Catalog :=
  ⟨fun cs =>
    if cs = convertQueryParams cfg1 dFail "S2" paramsFP then Except.error ()
    else Except.ok [recOk]⟩

/-- C1 witness: with two configured definitions and a catalog failing on
the first one's constraints, the results equal those of the loop on the
second definition alone and the warning for the first definition is
logged. -/
theorem c1_failure_isolated_witness :
    cfg1.pt_tags = [] ++ dFail :: [dOk]
  ∧ cat1.getrecords2 (convertQueryParams cfg1 dFail "S2" paramsFP)
      = Except.error ()
  ∧ ((query ext0 cfg1 "inst" (some cat1) (Except.ok cat1) "S2" paramsFP).1
        = (queryLoop ext0 cfg1 "inst" cat1 "S2" paramsFP ([] ++ [dOk])).1
      ∧ LogEntry.queryFailed dFail.name "S2"
          ∈ (query ext0 cfg1 "inst" (some cat1) (Except.ok cat1) "S2" paramsFP).2) :=
  ⟨rfl, by simp [cat1],
    c1_definition_failure_isolated ext0 cfg1 "inst" cat1 (Except.ok cat1)
      "S2" paramsFP [] [dOk] dFail rfl (by simp [cat1])⟩

/-- C6: a failed connection establishment leaves the adapter without a
catalog, so `query` returns the empty result list and logs the
initialisation failure; being a total function it raises nothing. -/
theorem c6_connection_failure_yields_empty (ext : Externals) (cfg : Config)
    (instanceName pt : String) (params : QueryParams) :
    (query ext cfg instanceName none (Except.error ()) pt params).1 = []
  ∧ LogEntry.initFailed
      ∈ (query ext cfg instanceName none (Except.error ()) pt params).2 := by
  constructor <;> simp [query, initCatalog]

end CSW
